import Mathlib

/-!
Shallow embedding of `generate-config.js` from cypress-docker-images.

The script scans the `base/`, `browsers/` and `included/` directory trees,
turns every subdirectory into an `{name, tag}` record, filters each of the
three collections through a per-category skip predicate, renders one CircleCI
job block per surviving tag, and writes the concatenation of a static
preamble with the three generated workflow blocks to `circle.yml`.

Pure string-building functions are translated into Lean functions on
`String`; the two fallible generators (`formBrowserWorkflow`, which throws on
a tag without any recognizable browser marker, and `formIncludedWorkflow`,
whose `semver.lt` call throws on an invalid semantic version) are translated
into `Except String` computations where `.error` models the thrown exception
aborting the run.  The final `fs.writeFileSync` is modelled by the `.ok`
payload of `writeConfigFile`: the file is written exactly when the whole
computation succeeds, and an `.error` result means the process aborts with a
non-zero exit before any write happens.
-/

namespace GenerateConfig

/-- One image folder, as produced by `splitImageFolderName`: `name` is the
parent directory (image family) and `tag` the subdirectory name. -/
structure ImageAndTag where
  name : String
  tag : String
deriving DecidableEq, Repr

/-- `os.EOL` of the platform the generator runs on (Linux CI): a newline. -/
def osEOL : String := "\n"

instance {ε α : Type} [DecidableEq ε] [DecidableEq α] : DecidableEq (Except ε α) :=
  fun x y =>
    match x, y with
    | .error e, .error f =>
      if h : e = f then .isTrue (by rw [h]) else .isFalse (by intro hh; cases hh; exact h rfl)
    | .ok a, .ok b =>
      if h : a = b then .isTrue (by rw [h]) else .isFalse (by intro hh; cases hh; exact h rfl)
    | .error _, .ok _ => .isFalse (by intro h; cases h)
    | .ok _, .error _ => .isFalse (by intro h; cases h)

/-- The static preamble template literal of generate-config.js, with the one
template interpolation (the script file name) substituted. -/
def preamble : String :=
  "
# WARNING: this file is automatically generated by generate-config.js
# info on building Docker images on Circle
# https://circleci.com/docs/2.0/building-docker-images/
version: 2.1

orbs:
  node: circleci/node@1.1

commands:
  halt-on-branch:
    description: Halt current CircleCI job if not on master branch
    steps:
      - run:
          name: Halting job if not on master branch
          command: |
            if [[ \"$CIRCLE_BRANCH\" != \"master\" ]]; then
              echo \"Not master branch, will skip the rest of commands\"
              circleci-agent step halt
            else
              echo \"On master branch, can continue\"
            fi

  halt-if-docker-image-exists:
    description: Halt current CircleCI job if Docker image exists already
    parameters:
      imageName:
        type: string
        description: Docker image name to test
    steps:
      - run:
          name: Check if image << parameters.imageName >> exists or Docker hub does not respond
          # using https://github.com/cypress-io/docker-image-not-found
          # to check if Docker hub definitely does not have this image
          command: |
            if npx docker-image-not-found --repo << parameters.imageName >>; then
              echo Docker hub says image << parameters.imageName >> does not exist
            else
              echo Docker hub has image << parameters.imageName >> or not responding
              echo We should stop in this case
              circleci-agent step halt
            fi

  test-base-image:
    description: Build a test image from base image and test it
    parameters:
      nodeVersion:
        type: string
        description: Node version to expect in the base image, starts with \"v\"
      imageName:
        type: string
        description: Cypress base docker image to test
      checkNodeVersion:
        type: boolean
        description: Check if the FROM image name is strict Node version
        default: true
    steps:
      - when:
          condition: << parameters.checkNodeVersion >>
          steps:
          - run:
              name: confirm image has Node << parameters.nodeVersion >>
              # do not run Docker in the interactive mode - adds control characters!
              command: |
                version=$(docker run << parameters.imageName >> node --version)
                if [ \"$version\" == \"<< parameters.nodeVersion >>\" ]; then
                  echo \"Base image has the expected version of Node << parameters.nodeVersion >>\";
                else
                  echo \"Problem: base image has unexpected Node version\"
                  echo \"Expected << parameters.nodeVersion >> and got $version\"
                  exit 1
                fi
      - run:
          name: test image << parameters.imageName >>
          no_output_timeout: '3m'
          command: |
            docker build -t cypress/test -\\<<EOF
            FROM << parameters.imageName >>
            RUN echo \"current user: $(whoami)\"
            ENV CI=1
            RUN npm init --yes
            RUN npm install --save-dev cypress cypress-expect
            RUN ./node_modules/.bin/cypress verify
            RUN npx @bahmutov/cly init
            # run Cypress by itself
            RUN ./node_modules/.bin/cypress run
            # run Cypress using module API and confirm number of passing tests
            RUN ./node_modules/.bin/cypress-expect run --passing 1
            EOF

      - run:
          name: test image << parameters.imageName >> using Kitchensink
          no_output_timeout: '3m'
          command: |
            docker build -t cypress/test-kitchensink -\\<<EOF
            FROM << parameters.imageName >>
            RUN echo \"current user: $(whoami)\"
            ENV CI=1
            ENV CYPRESS_INTERNAL_FORCE_SCAFFOLD=1
            RUN npm init --yes
            RUN npm install --save-dev cypress cypress-expect
            RUN ./node_modules/.bin/cypress verify
            RUN echo '\x7b\x7d' > cypress.json
            # run Cypress and confirm minimum number of passing tets
            RUN ./node_modules/.bin/cypress-expect run --min-passing 100
            EOF

  test-browser-image:
    description: Build a test image from browser image and test it
    parameters:
      imageName:
        type: string
        description: Cypress browser docker image to test
      chromeVersion:
        type: string
        default: ''
        description: Chrome version to expect in the base image, starts with \"Google Chrome XX\"
      firefoxVersion:
        type: string
        default: ''
        description: Firefox version to expect in the base image, starts with \"Mozilla Firefox XX\"
      edgeVersion:
        type: string
        default: ''
        description: Edge version to expect in the base image, starts with \"Microsoft Edge XX\"
    steps:
      - when:
          condition: << parameters.chromeVersion >>
          steps:
          - run:
              name: confirm image has Chrome << parameters.chromeVersion >>
              # do not run Docker in the interactive mode - adds control characters!
              # and use Bash regex string comparison
              command: |
                version=$(docker run << parameters.imageName >> google-chrome --version)
                if [[ \"$version\" =~ ^\"<< parameters.chromeVersion >>\" ]]; then
                  echo \"Image has the expected version of Chrome << parameters.chromeVersion >>\"
                  echo \"found $version\"
                else
                  echo \"Problem: image has unexpected Chrome version\"
                  echo \"Expected << parameters.chromeVersion >> and got $version\"
                  exit 1
                fi

      - when:
          condition: << parameters.firefoxVersion >>
          steps:
          - run:
              name: confirm the image has Firefox << parameters.firefoxVersion >>
              command: |
                version=$(docker run << parameters.imageName >> firefox --version)
                if [[ \"$version\" =~ ^\"<< parameters.firefoxVersion >>\" ]]; then
                  echo \"Image has the expected version of Firefox << parameters.firefoxVersion >>\"
                  echo \"found $version\"
                else
                  echo \"Problem: image has unexpected Firefox version\"
                  echo \"Expected << parameters.firefoxVersion >> and got $version\"
                  exit 1
                fi

      - when:
          condition: << parameters.edgeVersion >>
          steps:
          - run:
              name: confirm the image has Edge << parameters.edgeVersion >>
              command: |
                version=$(docker run << parameters.imageName >> edge --version)
                if [[ \"$version\" =~ ^\"<< parameters.edgeVersion >>\" ]]; then
                  echo \"Image has the expected version of Edge << parameters.edgeVersion >>\"
                  echo \"found $version\"
                else
                  echo \"Problem: image has unexpected Edge version\"
                  echo \"Expected << parameters.edgeVersion >> and got $version\"
                  exit 1
                fi

      - run:
          name: test image << parameters.imageName >>
          no_output_timeout: '3m'
          command: |
            docker build -t cypress/test -\\<<EOF
            FROM << parameters.imageName >>
            RUN echo \"current user: $(whoami)\"
            ENV CI=1
            RUN npm init --yes
            RUN npm install --save-dev cypress
            RUN ./node_modules/.bin/cypress verify
            RUN npx @bahmutov/cly init
            EOF

      - run:
          name: Test built-in Electron browser
          no_output_timeout: '1m'
          command: docker run cypress/test ./node_modules/.bin/cypress run

      - when:
          condition: << parameters.chromeVersion >>
          steps:
          - run:
              name: Test << parameters.chromeVersion >>
              no_output_timeout: '1m'
              command: docker run cypress/test ./node_modules/.bin/cypress run --browser chrome

      - when:
          condition: << parameters.firefoxVersion >>
          steps:
          - run:
              name: Test << parameters.firefoxVersion >>
              no_output_timeout: '1m'
              command: docker run cypress/test ./node_modules/.bin/cypress run --browser firefox

      - when:
          condition: << parameters.edgeVersion >>
          steps:
          - run:
              name: Test << parameters.edgeVersion >>
              no_output_timeout: '1m'
              command: docker run cypress/test ./node_modules/.bin/cypress run --browser edge

      - run:
          name: scaffold image << parameters.imageName >> using Kitchensink
          no_output_timeout: '3m'
          command: |
            docker build -t cypress/test-kitchensink -\\<<EOF
            FROM << parameters.imageName >>
            RUN echo \"current user: $(whoami)\"
            ENV CI=1
            ENV CYPRESS_INTERNAL_FORCE_SCAFFOLD=1
            RUN npm init --yes
            RUN npm install --save-dev cypress
            RUN ./node_modules/.bin/cypress verify
            RUN echo '\x7b\x7d' > cypress.json
            EOF

      - when:
          condition: << parameters.chromeVersion >>
          steps:
          - run:
              name: Test << parameters.chromeVersion >>
              no_output_timeout: '1m'
              command: docker run cypress/test-kitchensink ./node_modules/.bin/cypress run --browser chrome

      - when:
          condition: << parameters.firefoxVersion >>
          steps:
          - run:
              name: Test << parameters.firefoxVersion >>
              no_output_timeout: '1m'
              command: docker run cypress/test-kitchensink ./node_modules/.bin/cypress run --browser firefox

      - when:
          condition: << parameters.edgeVersion >>
          steps:
          - run:
              name: Test << parameters.edgeVersion >>
              no_output_timeout: '1m'
              command: docker run cypress/test-kitchensink ./node_modules/.bin/cypress run --browser edge

  test-included-image-versions:
    description: Testing pre-installed versions
    parameters:
      cypressVersion:
        type: string
        description: Cypress version to test, like \"4.0.0\"
      imageName:
        type: string
        description: Cypress included docker image to test
    steps:
      - run:
          name: 'Print versions'
          command: docker run -it --entrypoint cypress cypress/included:<< parameters.cypressVersion >> version

      - run:
          name: 'Print info'
          command: docker run -it --entrypoint cypress cypress/included:<< parameters.cypressVersion >> info

      - run:
          name: 'Check Node version'
          command: |
            export NODE_VERSION=$(docker run --entrypoint node cypress/included:<< parameters.cypressVersion >> --version)
            export CYPRESS_NODE_VERSION=$(docker run --entrypoint cypress cypress/included:<< parameters.cypressVersion >> version --component node)
            echo \"Included Node $NODE_VERSION\"
            echo \"Cypress includes Node $CYPRESS_NODE_VERSION\"
            # \"node --version\" returns something like \"v12.1.2\"
            # and \"cypres version ...\" returns just \"12.1.2\"
            if [ \"$NODE_VERSION\" = \"v$CYPRESS_NODE_VERSION\" ]; then
              echo \"Node versions match\"
            else
              echo \"Node version mismatch 🔥\"
              # TODO make sure there are no extra characters in the versions
              # https://github.com/cypress-io/cypress-docker-images/issues/411
              # exit 1
            fi

  test-included-image:
    description: Testing Docker image with Cypress pre-installed
    parameters:
      cypressVersion:
        type: string
        description: Cypress version to test, like \"4.0.0\"
      imageName:
        type: string
        description: Cypress included docker image to test
    steps:
      - run:
          name: New test project and testing
          no_output_timeout: '3m'
          command: |
            node --version
            mkdir test
            cd test
            echo \"Initializing test project\"
            npx @bahmutov/cly init --cypress-version << parameters.cypressVersion >>

            echo \"Testing using Electron browser\"
            docker run -it -v $PWD:/e2e -w /e2e cypress/included:<< parameters.cypressVersion >>

            echo \"Testing using Chrome browser\"
            docker run -it -v $PWD:/e2e -w /e2e cypress/included:<< parameters.cypressVersion >> --browser chrome
          working_directory: /tmp

  test-included-image-using-kitchensink:
    description: Testing Cypress pre-installed using Kitchensink
    parameters:
      cypressVersion:
        type: string
        description: Cypress version to test, like \"4.0.0\"
      imageName:
        type: string
        description: Cypress included docker image to test
    steps:
      - run:
          name: Testing Kitchensink
          no_output_timeout: '3m'
          command: |
            node --version
            mkdir test-kitchensink
            cd test-kitchensink

            npm init -y
            echo '\x7b\x7d' > cypress.json

            echo \"Testing using Electron browser\"
            docker run -it -v $PWD:/e2e -w /e2e -e CYPRESS_INTERNAL_FORCE_SCAFFOLD=1 cypress/included:<< parameters.cypressVersion >>

            echo \"Testing using Chrome browser\"
            docker run -it -v $PWD:/e2e -w /e2e -e CYPRESS_INTERNAL_FORCE_SCAFFOLD=1 cypress/included:<< parameters.cypressVersion >> --browser chrome

          working_directory: /tmp

  docker-push:
    description: Log in and push a given image to Docker hub
    parameters:
      imageName:
        type: string
        description: Docker image name to push
    steps:
      # before pushing, let's check again that the Docker Hub does not have the image
      # accidental rebuild and overwrite of an image is bad, since it can bump every tool
      # https://github.com/cypress-io/cypress/issues/6335
      - halt-if-docker-image-exists:
          imageName: << parameters.imageName >>
      - run:
          name: Pushing image << parameters.imageName >> to Docker Hub
          command: |
            echo \"$DOCKERHUB_PASS\" | docker login -u \"$DOCKERHUB_USERNAME\" --password-stdin
            docker push << parameters.imageName >>

jobs:
  lint-markdown:
    executor:
      name: node/default
      tag: '12'
    steps:
      - checkout
      - node/with-cache:
          steps:
            - run: npm ci
      - run: npm run check:markdown

  build-base-image:
    machine: true
    parameters:
      dockerName:
        type: string
        description: Image name to build
        default: cypress/base
      dockerTag:
        type: string
        description: Image tag to build like \"12.14.0\"
      checkNodeVersion:
        type: boolean
        description: Check if the FROM image name is strict Node version
        default: true
    steps:
      - checkout
      - halt-if-docker-image-exists:
          imageName: << parameters.dockerName >>:<< parameters.dockerTag >>
      - run:
          name: building Docker image << parameters.dockerName >>:<< parameters.dockerTag >>
          command: |
            docker build -t << parameters.dockerName >>:<< parameters.dockerTag >> .
          working_directory: base/<< parameters.dockerTag >>

      - test-base-image:
          nodeVersion: v<< parameters.dockerTag >>
          imageName: << parameters.dockerName >>:<< parameters.dockerTag >>
          checkNodeVersion: << parameters.checkNodeVersion >>
      - halt-on-branch
      - docker-push:
          imageName: << parameters.dockerName >>:<< parameters.dockerTag >>

  build-browser-image:
    machine: true
    parameters:
      dockerName:
        type: string
        description: Image name to build
        default: cypress/browsers
      dockerTag:
        type: string
        description: Image tag to build like \"node12.4.0-chrome76\"
      chromeVersion:
        type: string
        default: ''
        description: Chrome version to expect in the base image, starts with \"Google Chrome XX\"
      firefoxVersion:
        type: string
        default: ''
        description: Firefox version to expect in the base image, starts with \"Mozilla Firefox XX\"
      edgeVersion:
        type: string
        default: ''
        description: Edge version to expect in the base image, starts with \"Microsoft Edge XX\"
    steps:
      - checkout
      - halt-if-docker-image-exists:
          imageName: << parameters.dockerName >>:<< parameters.dockerTag >>
      - run:
          name: building Docker image << parameters.dockerName >>:<< parameters.dockerTag >>
          command: |
            docker build -t << parameters.dockerName >>:<< parameters.dockerTag >> .
          working_directory: browsers/<< parameters.dockerTag >>
      - test-browser-image:
          imageName: << parameters.dockerName >>:<< parameters.dockerTag >>
          chromeVersion: << parameters.chromeVersion >>
          firefoxVersion: << parameters.firefoxVersion >>
          edgeVersion: << parameters.edgeVersion >>
      - halt-on-branch
      - docker-push:
          imageName: << parameters.dockerName >>:<< parameters.dockerTag >>

  build-included-image:
    machine: true
    parameters:
      dockerName:
        type: string
        description: Image name to build
        default: cypress/included
      dockerTag:
        type: string
        description: Image tag to build, should match Cypress version, like \"3.8.1\"
    steps:
      - checkout
      # temporarily in this PR
      # - halt-if-docker-image-exists:
      #    imageName: << parameters.dockerName >>:<< parameters.dockerTag >>
      - run:
          name: building Docker image << parameters.dockerName >>:<< parameters.dockerTag >>
          command: |
            docker build -t << parameters.dockerName >>:<< parameters.dockerTag >> .
          working_directory: included/<< parameters.dockerTag >>

      - test-included-image-versions:
          cypressVersion: << parameters.dockerTag >>
          imageName: << parameters.dockerName >>:<< parameters.dockerTag >>

      - test-included-image:
          cypressVersion: << parameters.dockerTag >>
          imageName: << parameters.dockerName >>:<< parameters.dockerTag >>

      - test-included-image-using-kitchensink:
          cypressVersion: << parameters.dockerTag >>
          imageName: << parameters.dockerName >>:<< parameters.dockerTag >>

      - halt-on-branch
      - docker-push:
          imageName: << parameters.dockerName >>:<< parameters.dockerTag >>

workflows:
  version: 2
  lint:
    jobs:
      - lint-markdown
"

/-! ## Base image workflow (`formBaseWorkflow`) -/

/-- The hard-coded base-image skip list of `formBaseWorkflow`. -/
def baseSkipImages : List String :=
  [ "6", "8", "8.0.0", "8.15.1", "8.16.0", "8.2.1", "8.9.3",
    "8.9.3-npm-6.10.1", "10", "10.0.0", "10.11.0", "10.15.3", "10.16.0",
    "10.16.3", "10.18.0", "10.18.1", "10.2.1", "11.13.0", "12.0.0",
    "12.1.0", "12.12.0", "12.13.0", "12.14.0", "12.14.1", "12.16.0",
    "12.16.1", "12.16.2", "12.18.0", "12.18.2", "12.4.0", "12.6.0",
    "12.8.1", "13.1.0", "13.3.0", "13.6.0", "13.8.0", "14.0.0",
    "centos7", "centos7-12.4.0", "ubuntu16", "ubuntu16-12.13.1",
    "ubuntu16-8", "ubuntu18-node12.14.1", "ubuntu19-node12.14.1" ]

/-- `isSkipped` of `formBaseWorkflow`: exact membership in the skip list. -/
def baseIsSkipped (tag : String) : Bool := baseSkipImages.contains tag

/-- `isIncluded` of `formBaseWorkflow`. -/
def baseIsIncluded (imageAndTag : ImageAndTag) : Bool :=
  !(baseIsSkipped imageAndTag.tag)

/-- The three fixed lines every base job block starts with (the `job` string
built first in the `map` callback of `formBaseWorkflow`). -/
def baseJobCore (tag : String) : String :=
  "      - build-base-image:\n" ++
  "          name: \"base " ++ tag ++ "\"\n" ++
  "          dockerTag: \"" ++ tag ++ "\"\n"

/-- The line appended for the two custom images whose Node version is not
checked. -/
def checkNodeVersionFalseLine : String :=
  "          checkNodeVersion: false\n"

/-- The `map` callback of `formBaseWorkflow`: render one base job block. -/
def formBaseJob (imageAndTag : ImageAndTag) : String :=
  if imageAndTag.tag == "12.0.0-libgbm" || imageAndTag.tag == "manjaro-14.12.0" then
    baseJobCore imageAndTag.tag ++ checkNodeVersionFalseLine
  else
    baseJobCore imageAndTag.tag

/-- The `yml` list of `formBaseWorkflow`: one rendered job block per
non-skipped base image. -/
def formBaseWorkflowJobs (baseImages : List ImageAndTag) : List String :=
  (baseImages.filter baseIsIncluded).map formBaseJob

/-- `formBaseWorkflow`: the full base workflow block. -/
def formBaseWorkflow (baseImages : List ImageAndTag) : String :=
  "  build-base-images:\n" ++ "    jobs:\n" ++
    String.join (formBaseWorkflowJobs baseImages)

/-! ## Browser version classifiers (`findChromeVersion` etc.)

The JS classifiers run the regexes `chrome(\d+)`, `-ff(\d+)` and
`-edge(\d+)` over the tag and return the captured digit group.  We model
`re.exec`: scan for the leftmost position where the literal pattern prefix is
followed by at least one digit, and capture the maximal digit run there. -/

/-- Try to match `pat` followed by one or more digits at the head of `s`;
on success return the captured digit run. -/
def matchDigitsAt (pat s : List Char) : Option (List Char) :=
  if pat.isPrefixOf s then
    let ds := (s.drop pat.length).takeWhile Char.isDigit
    if ds.isEmpty then none else some ds
  else none

/-- Leftmost match of `pat` followed by a digit group, anywhere in `s`
(the semantics of `exec` for these patterns). -/
def execDigitCapture (pat : List Char) : List Char → Option (List Char)
  | [] => none
  | c :: cs =>
    match matchDigitsAt pat (c :: cs) with
    | some ds => some ds
    | none => execDigitCapture pat cs

/-- String-level wrapper: the digit group captured by `pat(\d+)` in `s`. -/
def regexDigitCapture (pat s : String) : Option String :=
  (execDigitCapture pat.data s.data).map fun ds => String.mk ds

/-- `fullChromeVersion`. -/
def fullChromeVersion (version : String) : String :=
  "Google Chrome " ++ version

/-- `fullFirefoxVersion`. -/
def fullFirefoxVersion (version : String) : String :=
  "Mozilla Firefox " ++ version

/-- `fullEdgeVersion`. -/
def fullEdgeVersion (version : String) : String :=
  "Microsoft Edge " ++ version

/-- `findChromeVersion`: capture of `chrome(\d+)`, vendor-formatted. -/
def findChromeVersion (imageAndTag : String) : Option String :=
  match regexDigitCapture "chrome" imageAndTag with
  | some digits => some (fullChromeVersion digits)
  | none => none

/-- `findFirefoxVersion`: capture of `-ff(\d+)`, vendor-formatted. -/
def findFirefoxVersion (imageAndTag : String) : Option String :=
  match regexDigitCapture "-ff" imageAndTag with
  | some digits => some (fullFirefoxVersion digits)
  | none => none

/-- `findEdgeVersion`: capture of `-edge(\d+)`, vendor-formatted. -/
def findEdgeVersion (imageAndTag : String) : Option String :=
  match regexDigitCapture "-edge" imageAndTag with
  | some digits => some (fullEdgeVersion digits)
  | none => none

/-! ## Browser image workflow (`formBrowserWorkflow`) -/

/-- The hard-coded browser-image skip list of `formBrowserWorkflow`. -/
def browserSkipImages : List String :=
  [ "chrome63-ff57", "chrome65-ff57", "chrome67", "chrome67-ff57",
    "chrome69", "node8.15.1-chrome73", "node8.2.1-chrome73",
    "node8.9.3-chrome73", "node8.9.3-npm6.10.1-chrome75",
    "node8.9.3-npm6.10.1-chrome76-ff68", "node10.11.0-chrome75",
    "node10.16.0-chrome76", "node10.16.0-chrome77",
    "node10.16.0-chrome77-ff71", "node10.16.3-chrome80-ff73",
    "node10.2.1-chrome74", "node11.13.0-chrome73", "node12.0.0-chrome73",
    "node12.0.0-chrome73-ff68", "node12.0.0-chrome75",
    "node12.13.0-chrome78-ff70", "node12.13.0-chrome78-ff70-brave78",
    "node12.13.0-chrome80-ff73", "node12.13.0-chrome80-ff74",
    "node12.14.0-chrome79-ff71", "node12.14.1-chrome83-ff77",
    "node12.16.1-chrome80-ff73", "node12.16.2-chrome81-ff75",
    "node12.18.0-chrome83-ff77", "node12.4.0-chrome76",
    "node12.6.0-chrome75", "node12.6.0-chrome77",
    "node12.8.1-chrome78-ff70", "node12.8.1-chrome80-ff72",
    "node13.1.0-chrome78-ff70", "node13.3.0-chrome79-ff70",
    "node13.6.0-chrome80-ff72" ]

/-- `isSkipped` of `formBrowserWorkflow`. -/
def browserIsSkipped (tag : String) : Bool := browserSkipImages.contains tag

/-- `isIncluded` of `formBrowserWorkflow`. -/
def browserIsIncluded (imageAndTag : ImageAndTag) : Bool :=
  !(browserIsSkipped imageAndTag.tag)

/-- The browser job block text, given the classification results (the string
appends guarded by `if (chromeVersion)` etc. in the source). -/
def browserJobText (tag : String) (cv fv ev : Option String) : String :=
  let job := "      - build-browser-image:\n" ++
    "          name: \"browsers " ++ tag ++ "\"\n" ++
    "          dockerTag: \"" ++ tag ++ "\"\n"
  let job := match cv with
    | some v => job ++ "          chromeVersion: \"" ++ v ++ "\"\n"
    | none => job
  let job := match fv with
    | some v => job ++ "          firefoxVersion: \"" ++ v ++ "\"\n"
    | none => job
  match ev with
  | some v => job ++ "          edgeVersion: \"" ++ v ++ "\"\n"
  | none => job

/-- The `map` callback of `formBrowserWorkflow`: classify the tag, abort when
no browser marker is found, and render one browser job block otherwise. -/
def formBrowserJob (imageAndTag : ImageAndTag) : Except String String :=
  let chromeVersion := findChromeVersion imageAndTag.tag
  let firefoxVersion := findFirefoxVersion imageAndTag.tag
  let edgeVersion := findEdgeVersion imageAndTag.tag
  if chromeVersion.isNone && firefoxVersion.isNone && edgeVersion.isNone then
    .error ("Cannot find any browsers from image tag \"" ++ imageAndTag.tag ++ "\"")
  else
    .ok (browserJobText imageAndTag.tag chromeVersion firefoxVersion edgeVersion)

/-- `Array.prototype.map` with a callback that can throw: apply `f` left to
right, propagating the first exception. -/
def mapExcept (f : α → Except ε β) : List α → Except ε (List β)
  | [] => .ok []
  | a :: as => do
    let b ← f a
    let bs ← mapExcept f as
    pure (b :: bs)

/-- The `yml` list of `formBrowserWorkflow` (may abort). -/
def formBrowserWorkflowJobs (browserImages : List ImageAndTag) :
    Except String (List String) :=
  mapExcept formBrowserJob (browserImages.filter browserIsIncluded)

/-- `formBrowserWorkflow`: the full browser workflow block (may abort). -/
def formBrowserWorkflow (browserImages : List ImageAndTag) :
    Except String String := do
  let yml ← formBrowserWorkflowJobs browserImages
  pure ("  build-browser-images:\n" ++ "    jobs:\n" ++ String.join yml)

/-! ## Semantic versions (the `semver` npm package, as used here)

`formIncludedWorkflow` calls `semver.lt(tag, '6.0.0')`, which parses both
arguments (throwing `Invalid Version` on failure) and compares them by the
semver precedence rules: major, minor, patch numerically, then a version
with a prerelease sorts before the same core without one, then prerelease
identifiers field by field (numeric before alphanumeric). -/

/-- Numeric value of a digit run. -/
def digitsToNat (cs : List Char) : Nat :=
  cs.foldl (fun a c => a * 10 + (c.toNat - 48)) 0

/-- Parse one numeric semver field: nonempty, all digits, no leading zero. -/
def parseNumericIdent (s : String) : Option Nat :=
  let cs := s.data
  if cs.isEmpty then none
  else if !(cs.all Char.isDigit) then none
  else if 1 < cs.length && cs.headD ' ' == '0' then none
  else some (digitsToNat cs)

/-- Characters allowed in prerelease/build identifiers. -/
def isIdentChar (c : Char) : Bool :=
  c.isDigit || c.isAlpha || c == '-'

/-- A valid prerelease identifier: nonempty alphanumerics/hyphens, and a
purely numeric identifier may not have a leading zero. -/
def validPrereleaseIdent (s : String) : Bool :=
  !s.isEmpty && s.data.all isIdentChar &&
    (if s.data.all Char.isDigit
     then !(1 < s.data.length && s.data.headD ' ' == '0')
     else true)

/-- A valid build identifier: nonempty alphanumerics/hyphens. -/
def validBuildIdent (s : String) : Bool :=
  !s.isEmpty && s.data.all isIdentChar

/-- A parsed semantic version; build metadata is validated but dropped, as it
never takes part in precedence. -/
structure SemVer where
  major : Nat
  minor : Nat
  patch : Nat
  prerelease : List String
deriving DecidableEq, Repr

/-- Split a character list at every occurrence of `sep` (the semantics of
`String.split` on a single-character separator). -/
def splitOnChar (sep : Char) : List Char → List (List Char)
  | [] => [[]]
  | c :: rest =>
    if c == sep then [] :: splitOnChar sep rest
    else
      match splitOnChar sep rest with
      | [] => [[c]]
      | g :: gs => (c :: g) :: gs

/-- Break a character list at the first occurrence of `sep`: the part before
it, and the part after it when `sep` occurs at all. -/
def breakOnFirst (sep : Char) : List Char → List Char × Option (List Char)
  | [] => ([], none)
  | c :: rest =>
    if c == sep then ([], some rest)
    else
      let (pre, suf) := breakOnFirst sep rest
      (c :: pre, suf)

/-- Strip leading and trailing whitespace (the semantics of `trim`). -/
def trimChars (cs : List Char) : List Char :=
  ((cs.dropWhile Char.isWhitespace).reverse.dropWhile Char.isWhitespace).reverse

/-- Parse `major.minor.patch` optionally followed by `-prerelease`:
everything before the first dash is the version core, everything after it the
dot-separated prerelease identifier list. -/
def semverParseMainPre (cs : List Char) : Option SemVer :=
  let (core, pre) := breakOnFirst '-' cs
  match splitOnChar '.' core with
  | [ma, mi, pa] =>
    match parseNumericIdent (String.mk ma), parseNumericIdent (String.mk mi),
        parseNumericIdent (String.mk pa) with
    | some major, some minor, some patch =>
      match pre with
      | none => some ⟨major, minor, patch, []⟩
      | some preChars =>
        let ids := (splitOnChar '.' preChars).map String.mk
        if ids.all validPrereleaseIdent then some ⟨major, minor, patch, ids⟩
        else none
    | _, _, _ => none
  | _ => none

/-- The `SemVer` constructor of the `semver` package: trim, allow one leading
`v`, split off `+build` metadata, then parse core and prerelease.  `none`
models the thrown `Invalid Version` `TypeError`. -/
def semverParse (input : String) : Option SemVer :=
  let cs := trimChars input.data
  let cs := match cs with
    | 'v' :: rest => rest
    | other => other
  match breakOnFirst '+' cs with
  | (mainAndPre, none) => semverParseMainPre mainAndPre
  | (mainAndPre, some build) =>
    if ((splitOnChar '.' build).map String.mk).all validBuildIdent then
      semverParseMainPre mainAndPre
    else none

/-- Is an identifier purely numeric (semver `compareIdentifiers` test)? -/
def identIsNumeric (s : String) : Bool :=
  !s.isEmpty && s.data.all Char.isDigit

/-- semver `compareIdentifiers`: numeric identifiers compare numerically and
before alphanumeric ones; alphanumeric ones compare lexicographically. -/
def compareIdentifiers (a b : String) : Ordering :=
  if identIsNumeric a && identIsNumeric b then
    compare (digitsToNat a.data) (digitsToNat b.data)
  else if identIsNumeric a then .lt
  else if identIsNumeric b then .gt
  else compare a b

/-- Field-by-field comparison of two nonempty prerelease identifier lists:
a missing field sorts before a present one. -/
def comparePrereleaseIds : List String → List String → Ordering
  | [], [] => .eq
  | [], _ :: _ => .lt
  | _ :: _, [] => .gt
  | a :: as, b :: bs =>
    match compareIdentifiers a b with
    | .eq => comparePrereleaseIds as bs
    | o => o

/-- semver precedence: core numerically; with equal cores a prerelease sorts
before no prerelease, and prereleases compare field by field. -/
def semverCompare (a b : SemVer) : Ordering :=
  match compare a.major b.major with
  | .eq =>
    match compare a.minor b.minor with
    | .eq =>
      match compare a.patch b.patch with
      | .eq =>
        match a.prerelease, b.prerelease with
        | [], [] => .eq
        | [], _ :: _ => .gt
        | _ :: _, [] => .lt
        | as, bs => comparePrereleaseIds as bs
      | o => o
    | o => o
  | o => o

/-- `semver.lt` on already-parsed versions. -/
def semverLt (a b : SemVer) : Bool := semverCompare a b == .lt

/-! ## Included image workflow (`formIncludedWorkflow`) -/

/-- `isSkipped` of `formIncludedWorkflow`: `semver.lt(tag, '6.0.0')`, which
throws (modelled as `.error`) when the tag is not a valid version. -/
def includedIsSkipped (tag : String) : Except String Bool :=
  match semverParse tag, semverParse "6.0.0" with
  | some v, some threshold => .ok (semverLt v threshold)
  | _, _ => .error ("Invalid Version: " ++ tag)

/-- The filter predicate `isIncluded` of `formIncludedWorkflow`. -/
def includedKeep (imageAndTag : ImageAndTag) : Except String Bool := do
  let skipped ← includedIsSkipped imageAndTag.tag
  pure (!skipped)

/-- `Array.prototype.filter` with a predicate that can throw: test the
elements left to right, propagating the first exception. -/
def filterExcept (p : α → Except ε Bool) : List α → Except ε (List α)
  | [] => .ok []
  | a :: as => do
    let keep ← p a
    let rest ← filterExcept p as
    pure (if keep then a :: rest else rest)

/-- The `map` callback of `formIncludedWorkflow`: one included job block. -/
def formIncludedJob (imageAndTag : ImageAndTag) : String :=
  "      - build-included-image:\n" ++
  "          name: \"included " ++ imageAndTag.tag ++ "\"\n" ++
  "          dockerTag: \"" ++ imageAndTag.tag ++ "\"\n"

/-- The `yml` list of `formIncludedWorkflow` (may abort on a bad version). -/
def formIncludedWorkflowJobs (images : List ImageAndTag) :
    Except String (List String) := do
  let included ← filterExcept includedKeep images
  pure (included.map formIncludedJob)

/-- `formIncludedWorkflow`: the full included workflow block (may abort). -/
def formIncludedWorkflow (images : List ImageAndTag) : Except String String := do
  let yml ← formIncludedWorkflowJobs images
  pure ("  build-included-images:\n" ++ "    jobs:\n" ++ String.join yml)

/-! ## Document assembly (`writeConfigFile`) -/

/-- `writeConfigFile`: assemble the whole document.  The `.ok` payload is the
text written to `circle.yml`; `.error` models a thrown exception aborting the
process before the write. -/
def writeConfigFile (baseImages browserImages includedImages : List ImageAndTag) :
    Except String String := do
  let base := formBaseWorkflow baseImages
  let browsers ← formBrowserWorkflow browserImages
  let included ← formIncludedWorkflow includedImages
  pure (preamble.trim ++ osEOL ++ base ++ osEOL ++ browsers ++ osEOL ++ included)

/-! ## Helper lemmas -/

@[simp] theorem except_bind_ok (a : α) (f : α → Except ε β) :
    (Except.ok a >>= f : Except ε β) = f a := rfl

@[simp] theorem except_bind_error (e : ε) (f : α → Except ε β) :
    (Except.error e >>= f : Except ε β) = Except.error e := rfl

@[simp] theorem except_map_ok (g : α → β) (a : α) :
    (g <$> (Except.ok a : Except ε α) : Except ε β) = Except.ok (g a) := rfl

@[simp] theorem except_map_error (g : α → β) (e : ε) :
    (g <$> (Except.error e : Except ε α) : Except ε β) = Except.error e := rfl

@[simp] theorem except_pure_eq_ok (a : α) :
    (pure a : Except ε α) = Except.ok a := rfl

theorem mapExcept_error_of_mem {f : α → Except ε β} {l : List α} {a : α} {e : ε}
    (hmem : a ∈ l) (ha : f a = .error e) : ∃ e', mapExcept f l = .error e' := by
  induction l with
  | nil => cases hmem
  | cons b bs ih =>
    rcases List.mem_cons.mp hmem with hb | hb
    · subst hb
      exact ⟨e, by simp [mapExcept, ha, Except.bind]⟩
    · cases hfb : f b with
      | error e' => exact ⟨e', by simp [mapExcept, hfb, Except.bind]⟩
      | ok v =>
        obtain ⟨e', he'⟩ := ih hb
        exact ⟨e', by simp [mapExcept, hfb, Except.bind, he']⟩

theorem mapExcept_ok_forall₂ {f : α → Except ε β} {l : List α} {r : List β}
    (h : mapExcept f l = .ok r) : List.Forall₂ (fun a b => f a = .ok b) l r := by
  induction l generalizing r with
  | nil =>
    simp only [mapExcept] at h
    cases h
    exact List.Forall₂.nil
  | cons a as ih =>
    cases hfa : f a with
    | error e => simp [mapExcept, hfa, Except.bind] at h
    | ok b =>
      cases hrest : mapExcept f as with
      | error e => simp [mapExcept, hfa, hrest, Except.bind] at h
      | ok bs =>
        simp only [mapExcept, hfa, hrest, Except.bind, pure, Except.pure] at h
        cases h
        exact List.Forall₂.cons hfa (ih hrest)

theorem filterExcept_error_of_mem {p : α → Except ε Bool} {l : List α} {a : α} {e : ε}
    (hmem : a ∈ l) (ha : p a = .error e) : ∃ e', filterExcept p l = .error e' := by
  induction l with
  | nil => cases hmem
  | cons b bs ih =>
    rcases List.mem_cons.mp hmem with hb | hb
    · subst hb
      exact ⟨e, by simp [filterExcept, ha, Except.bind]⟩
    · cases hfb : p b with
      | error e' => exact ⟨e', by simp [filterExcept, hfb, Except.bind]⟩
      | ok v =>
        obtain ⟨e', he'⟩ := ih hb
        exact ⟨e', by simp [filterExcept, hfb, Except.bind, he']⟩

theorem filterExcept_included_count_zero {l r : List ImageAndTag} {t : String}
    (h : filterExcept includedKeep l = .ok r)
    (ht : includedIsSkipped t = .ok true) :
    (r.map ImageAndTag.tag).count t = 0 := by
  induction l generalizing r with
  | nil =>
    simp only [filterExcept] at h
    cases h
    simp
  | cons a as ih =>
    cases hka : includedKeep a with
    | error e => simp [filterExcept, hka, Except.bind] at h
    | ok keep =>
      cases hrest : filterExcept includedKeep as with
      | error e => simp [filterExcept, hka, hrest, Except.bind] at h
      | ok kept =>
        simp only [filterExcept, hka, hrest, Except.bind, pure, Except.pure] at h
        cases h
        cases keep with
        | false => simpa using ih hrest
        | true =>
          have hskipa : includedIsSkipped a.tag = .ok false := by
            cases hsa : includedIsSkipped a.tag with
            | error e => simp [includedKeep, hsa, Except.bind] at hka
            | ok s =>
              simp only [includedKeep, hsa, Except.bind, pure, Except.pure,
                Except.ok.injEq, bind] at hka
              cases s
              · rfl
              · simp at hka
          have hne : a.tag ≠ t := by
            intro heq
            rw [heq, ht] at hskipa
            simp at hskipa
          simp [List.count_cons, hne, ih hrest]

theorem filterExcept_included_count_keep {l r : List ImageAndTag} {t : String}
    (h : filterExcept includedKeep l = .ok r)
    (ht : includedIsSkipped t = .ok false) :
    (r.map ImageAndTag.tag).count t = (l.map ImageAndTag.tag).count t := by
  induction l generalizing r with
  | nil =>
    simp only [filterExcept] at h
    cases h
    simp
  | cons a as ih =>
    cases hka : includedKeep a with
    | error e => simp [filterExcept, hka, Except.bind] at h
    | ok keep =>
      cases hrest : filterExcept includedKeep as with
      | error e => simp [filterExcept, hka, hrest, Except.bind] at h
      | ok kept =>
        simp only [filterExcept, hka, hrest, Except.bind, pure, Except.pure, bind] at h
        cases h
        cases keep with
        | true => simp [List.count_cons, ih hrest]
        | false =>
          have hskipa : includedIsSkipped a.tag = .ok true := by
            cases hsa : includedIsSkipped a.tag with
            | error e => simp [includedKeep, hsa, Except.bind] at hka
            | ok s =>
              simp only [includedKeep, hsa, Except.bind, pure, Except.pure,
                Except.ok.injEq, bind] at hka
              cases s
              · simp at hka
              · rfl
          have hne : a.tag ≠ t := by
            intro heq
            rw [heq, ht] at hskipa
            simp at hskipa
          simp [List.count_cons, hne, ih hrest]

theorem count_filter_tags (skip : String → Bool) (imgs : List ImageAndTag) (t : String)
    (hnd : (imgs.map ImageAndTag.tag).Nodup) :
    ((imgs.filter fun it => !(skip it.tag)).map ImageAndTag.tag).count t
      = if skip t then 0 else if t ∈ imgs.map ImageAndTag.tag then 1 else 0 := by
  induction imgs with
  | nil => simp
  | cons it rest ih =>
    simp only [List.map_cons, List.nodup_cons] at hnd
    obtain ⟨hnotmem, hnd'⟩ := hnd
    rw [List.filter_cons]
    by_cases hsk : skip it.tag
    · simp only [hsk, Bool.not_true, Bool.false_eq_true, if_false]
      rw [ih hnd']
      by_cases ht : t = it.tag
      · subst ht
        simp [hsk]
      · simp [List.mem_cons, ht, Ne.symm ht]
    · simp only [Bool.not_eq_true'] at hsk
      simp only [hsk, Bool.not_false, if_true, List.map_cons]
      rw [List.count_cons, ih hnd']
      by_cases ht : t = it.tag
      · subst ht
        simp [hsk, List.count_eq_zero_of_not_mem, hnotmem]
      · simp [List.mem_cons, ht, Ne.symm ht]

/-- The second-to-last character of a string, when it exists. -/
def penultimateChar (s : String) : Option Char :=
  ((s.data.reverse).drop 1).head?

theorem penultimateChar_append_two (x : String) (c d : Char) :
    penultimateChar (x ++ String.mk [c, d]) = some c := by
  simp [penultimateChar, String.mk, List.reverse_append]

theorem baseJobCore_ne_append_override (t rest : String) :
    baseJobCore t ≠ rest ++ checkNodeVersionFalseLine := by
  intro h
  have h1 : penultimateChar (baseJobCore t) = some '"' := by
    have hsplit : baseJobCore t
        = ("      - build-base-image:\n" ++ "          name: \"base " ++ t ++
            "\"\n" ++ "          dockerTag: \"" ++ t) ++ String.mk ['"', '\n'] := rfl
    rw [hsplit, penultimateChar_append_two]
  have h2 : penultimateChar (rest ++ checkNodeVersionFalseLine) = some 'e' := by
    have hsplit : rest ++ checkNodeVersionFalseLine
        = (rest ++ "          checkNodeVersion: fals") ++ String.mk ['e', '\n'] := by
      have : checkNodeVersionFalseLine
          = "          checkNodeVersion: fals" ++ String.mk ['e', '\n'] := rfl
      rw [this, ← String.append_assoc]
    rw [hsplit, penultimateChar_append_two]
  rw [h, h2] at h1
  simp at h1

theorem browserIsSkipped_classifiable {t : String}
    (h : browserIsSkipped t = true) : (findChromeVersion t).isSome := by
  have hall : browserSkipImages.all (fun s => (findChromeVersion s).isSome) = true := by
    decide
  have hmem : t ∈ browserSkipImages := by
    simpa [browserIsSkipped, List.contains, List.elem_iff] using h
  simpa using List.all_eq_true.mp hall t hmem

/-! ## Claim theorems -/

/-- C2 counterexample: the claim presumes `"10.0.0"` is not in the base skip
list and predicts two job blocks for the input tag list
`["10.0.0", "12.0.0-libgbm"]`; in the code `"10.0.0"` is in the skip list and
the base workflow emits exactly one job block for that input. -/
theorem base_ten_claim_counterexample :
    baseIsSkipped "10.0.0" = true
    ∧ (formBaseWorkflowJobs [⟨"base", "10.0.0"⟩, ⟨"base", "12.0.0-libgbm"⟩]).length = 1 := by
  constructor
  · decide
  · decide

/-- C2 (amended): for the base tag list `["10.0.0", "12.0.0-libgbm"]` the
base workflow emits exactly one job block — for `"12.0.0-libgbm"` (since
`"10.0.0"` is in the base skip list) — and that block carries the
`checkNodeVersion: false` override suppressing the node version check. -/
theorem base_ten_libgbm_single_job_block :
    formBaseWorkflowJobs [⟨"base", "10.0.0"⟩, ⟨"base", "12.0.0-libgbm"⟩]
      = [baseJobCore "12.0.0-libgbm" ++ checkNodeVersionFalseLine] := by
  decide

/-- C3: a base job block carries the `checkNodeVersion: false` override —
suppressing the default node version check of the `build-base-image` job —
exactly for the tags `"12.0.0-libgbm"` and `"manjaro-14.12.0"`; the block of
every other base tag keeps the default check. -/
theorem base_version_check_suppressed_for_exactly_two_tags (it : ImageAndTag) :
    (∃ rest, formBaseJob it = rest ++ checkNodeVersionFalseLine)
      ↔ (it.tag = "12.0.0-libgbm" ∨ it.tag = "manjaro-14.12.0") := by
  constructor
  · rintro ⟨rest, hres⟩
    by_contra hne
    push_neg at hne
    obtain ⟨h1, h2⟩ := hne
    rw [formBaseJob] at hres
    have hcond : (it.tag == "12.0.0-libgbm" || it.tag == "manjaro-14.12.0") = false := by
      simp [h1, h2]
    rw [hcond] at hres
    simp only [Bool.false_eq_true, if_false] at hres
    exact baseJobCore_ne_append_override it.tag rest hres
  · intro h
    refine ⟨baseJobCore it.tag, ?_⟩
    rw [formBaseJob]
    rcases h with h | h <;> simp [h]

/-- C3 witness: the override is present for `"manjaro-14.12.0"` and absent
for the ordinary tag `"14.0.0"`. -/
theorem base_version_check_suppressed_for_exactly_two_tags_witness :
    (∃ rest, formBaseJob ⟨"base", "manjaro-14.12.0"⟩ = rest ++ checkNodeVersionFalseLine)
    ∧ ¬(∃ rest, formBaseJob ⟨"base", "14.0.0"⟩ = rest ++ checkNodeVersionFalseLine) := by
  constructor
  · exact (base_version_check_suppressed_for_exactly_two_tags _).mpr (Or.inr rfl)
  · intro hx
    rcases (base_version_check_suppressed_for_exactly_two_tags _).mp hx with h | h <;>
      exact absurd h (by decide)

/-- C6: the included-image skip predicate excludes exactly the tags whose
semantic version is strictly below `6.0.0`: `"5.4.0"` is skipped, `"6.0.0"`
and `"7.0.0"` are kept and each produces a job block, and in general a
parseable tag is skipped precisely according to `semver.lt` against the
`6.0.0` threshold. -/
theorem included_skip_exactly_below_threshold :
    includedIsSkipped "5.4.0" = .ok true
    ∧ includedIsSkipped "6.0.0" = .ok false
    ∧ includedIsSkipped "7.0.0" = .ok false
    ∧ formIncludedWorkflowJobs
        [⟨"included", "5.4.0"⟩, ⟨"included", "6.0.0"⟩, ⟨"included", "7.0.0"⟩]
        = .ok [formIncludedJob ⟨"included", "6.0.0"⟩, formIncludedJob ⟨"included", "7.0.0"⟩]
    ∧ (∀ tag v, semverParse tag = some v →
        includedIsSkipped tag = .ok (semverLt v ⟨6, 0, 0, []⟩)) := by
  refine ⟨by decide, by decide, by decide, by decide, ?_⟩
  intro tag v h
  simp [includedIsSkipped, h,
    show semverParse "6.0.0" = some (⟨6, 0, 0, []⟩ : SemVer) from by decide]

/-- C6 witness: the threshold rule applied to the concrete tag `"2.0.0"`. -/
theorem included_skip_exactly_below_threshold_witness :
    includedIsSkipped "2.0.0" = .ok (semverLt ⟨2, 0, 0, []⟩ ⟨6, 0, 0, []⟩) :=
  included_skip_exactly_below_threshold.2.2.2.2 "2.0.0" ⟨2, 0, 0, []⟩ (by decide)

/-- C7: `findChromeVersion "node12.4.0-chrome76" = "Google Chrome 76"` and
`findFirefoxVersion "node10.16.3-chrome80-ff73" = "Mozilla Firefox 73"`; in
general every captured digit group is formatted into the vendor-prefixed
label. -/
theorem classifier_formats_vendor_labels :
    findChromeVersion "node12.4.0-chrome76" = some "Google Chrome 76"
    ∧ findFirefoxVersion "node10.16.3-chrome80-ff73" = some "Mozilla Firefox 73"
    ∧ (∀ tag d, regexDigitCapture "chrome" tag = some d →
        findChromeVersion tag = some ("Google Chrome " ++ d))
    ∧ (∀ tag d, regexDigitCapture "-ff" tag = some d →
        findFirefoxVersion tag = some ("Mozilla Firefox " ++ d))
    ∧ (∀ tag d, regexDigitCapture "-edge" tag = some d →
        findEdgeVersion tag = some ("Microsoft Edge " ++ d)) := by
  refine ⟨by decide, by decide, ?_, ?_, ?_⟩ <;> intro tag d h <;>
    simp [findChromeVersion, findFirefoxVersion, findEdgeVersion, h,
      fullChromeVersion, fullFirefoxVersion, fullEdgeVersion]

/-- C7 witness: the Edge classifier label, at a concrete tag. -/
theorem classifier_formats_vendor_labels_witness :
    findEdgeVersion "node1-edge9" = some ("Microsoft Edge " ++ "9") :=
  classifier_formats_vendor_labels.2.2.2.2 "node1-edge9" "9" (by decide)

/-- C9: generation is deterministic — two runs on equal base, browser and
included tag lists produce byte-identical documents (the embedded generator
is a pure function of the three tag lists). -/
theorem generation_is_deterministic
    (b₁ w₁ i₁ b₂ w₂ i₂ : List ImageAndTag)
    (hb : b₁ = b₂) (hw : w₁ = w₂) (hi : i₁ = i₂) :
    writeConfigFile b₁ w₁ i₁ = writeConfigFile b₂ w₂ i₂ := by
  rw [hb, hw, hi]

/-- C9 witness: the two runs at concrete (empty) inputs. -/
theorem generation_is_deterministic_witness :
    writeConfigFile [] [] [] = writeConfigFile [] [] [] :=
  generation_is_deterministic [] [] [] [] [] [] rfl rfl rfl

/-- C1: for every input tag list (with distinct tags, as directory listings
are), each category's workflow contains exactly one job block per tag not
matched by that category's skip predicate and zero per matched tag: the base
document is the join of the base job list; the non-skipped base and browser
tag multiplicities are 1 for present non-skipped tags and 0 for skipped ones;
a successful browser job list corresponds 1:1 to the non-skipped browser
images; and a successful included filter yields one block per kept image,
with skipped tags occurring zero times and non-skipped present tags once. -/
theorem workflow_emits_one_job_block_per_unskipped_tag
    (imgs : List ImageAndTag) (t : String)
    (hnd : (imgs.map ImageAndTag.tag).Nodup) :
    formBaseWorkflow imgs
        = "  build-base-images:\n" ++ "    jobs:\n" ++ String.join (formBaseWorkflowJobs imgs)
    ∧ ((imgs.filter baseIsIncluded).map ImageAndTag.tag).count t
        = (if baseIsSkipped t then 0 else if t ∈ imgs.map ImageAndTag.tag then 1 else 0)
    ∧ ((imgs.filter browserIsIncluded).map ImageAndTag.tag).count t
        = (if browserIsSkipped t then 0 else if t ∈ imgs.map ImageAndTag.tag then 1 else 0)
    ∧ (∀ jobs, formBrowserWorkflowJobs imgs = .ok jobs →
        List.Forall₂ (fun it j => formBrowserJob it = .ok j) (imgs.filter browserIsIncluded) jobs)
    ∧ (∀ kept, filterExcept includedKeep imgs = .ok kept →
        formIncludedWorkflowJobs imgs = .ok (kept.map formIncludedJob)
        ∧ (includedIsSkipped t = .ok true → (kept.map ImageAndTag.tag).count t = 0)
        ∧ (includedIsSkipped t = .ok false →
            (kept.map ImageAndTag.tag).count t
              = if t ∈ imgs.map ImageAndTag.tag then 1 else 0)) := by
  refine ⟨rfl, ?_, ?_, ?_, ?_⟩
  · exact count_filter_tags baseIsSkipped imgs t hnd
  · exact count_filter_tags browserIsSkipped imgs t hnd
  · intro jobs h
    exact mapExcept_ok_forall₂ h
  · intro kept h
    refine ⟨by simp [formIncludedWorkflowJobs, h], ?_, ?_⟩
    · intro hsk
      exact filterExcept_included_count_zero h hsk
    · intro hsk
      rw [filterExcept_included_count_keep h hsk]
      by_cases hm : t ∈ imgs.map ImageAndTag.tag
      · simp [hm, List.count_eq_one_of_mem hnd hm]
      · simp [hm, List.count_eq_zero_of_not_mem hm]

/-- C1 witness: the base count clause at a concrete single-image input. -/
theorem workflow_emits_one_job_block_per_unskipped_tag_witness :
    (([(⟨"base", "99.99.99"⟩ : ImageAndTag)].filter baseIsIncluded).map ImageAndTag.tag).count "99.99.99"
      = (if baseIsSkipped "99.99.99" then 0
         else if "99.99.99" ∈ [(⟨"base", "99.99.99"⟩ : ImageAndTag)].map ImageAndTag.tag
         then 1 else 0) :=
  (workflow_emits_one_job_block_per_unskipped_tag
    [⟨"base", "99.99.99"⟩] "99.99.99" (by decide)).2.1

/-- C4: a browser image whose tag matches none of the chrome, firefox and
edge patterns aborts the whole browser workflow generation with an error
rather than producing a job block (such a tag cannot be in the browser skip
list, every member of which matches the chrome pattern). -/
theorem unclassifiable_browser_tag_aborts_generation
    (imgs : List ImageAndTag) (it : ImageAndTag) (hmem : it ∈ imgs)
    (hc : findChromeVersion it.tag = none)
    (hf : findFirefoxVersion it.tag = none)
    (he : findEdgeVersion it.tag = none) :
    ∃ e, formBrowserWorkflow imgs = .error e := by
  have hsk : browserIsSkipped it.tag = false := by
    cases hb : browserIsSkipped it.tag
    · rfl
    · have hsome := browserIsSkipped_classifiable hb
      rw [hc] at hsome
      simp at hsome
  have hmemf : it ∈ imgs.filter browserIsIncluded :=
    List.mem_filter.mpr ⟨hmem, by simp [browserIsIncluded, hsk]⟩
  have hjob : formBrowserJob it
      = .error ("Cannot find any browsers from image tag \"" ++ it.tag ++ "\"") := by
    simp [formBrowserJob, hc, hf, he]
  obtain ⟨e, herr⟩ := mapExcept_error_of_mem hmemf hjob
  exact ⟨e, by simp [formBrowserWorkflow, formBrowserWorkflowJobs, herr]⟩

/-- C4 witness: the abort at the concrete unclassifiable tag
`"noversions"`. -/
theorem unclassifiable_browser_tag_aborts_generation_witness :
    ∃ e, formBrowserWorkflow [⟨"browsers", "noversions"⟩] = .error e :=
  unclassifiable_browser_tag_aborts_generation
    [⟨"browsers", "noversions"⟩] ⟨"browsers", "noversions"⟩
    (by decide) (by decide) (by decide) (by decide)

/-- C5: an included-image tag that is not a parseable semantic version makes
the whole generation abort with an error, so the output document is never
produced (no file write happens, leaving any previous file untouched). -/
theorem invalid_included_version_aborts_without_write
    (baseImages browserImages includedImages : List ImageAndTag)
    (it : ImageAndTag) (hmem : it ∈ includedImages)
    (hbad : semverParse it.tag = none) :
    ∃ e, writeConfigFile baseImages browserImages includedImages = .error e := by
  have hkeep : includedKeep it = .error ("Invalid Version: " ++ it.tag) := by
    simp [includedKeep, includedIsSkipped, hbad]
  obtain ⟨e, hflt⟩ := filterExcept_error_of_mem hmem hkeep
  have hincl : formIncludedWorkflow includedImages = .error e := by
    simp [formIncludedWorkflow, formIncludedWorkflowJobs, hflt]
  cases hbw : formBrowserWorkflow browserImages with
  | error f => exact ⟨f, by simp [writeConfigFile, hbw]⟩
  | ok s => exact ⟨e, by simp [writeConfigFile, hbw, hincl]⟩

/-- C5 witness: the abort at the concrete invalid tag `"not-a-version"`. -/
theorem invalid_included_version_aborts_without_write_witness :
    ∃ e, writeConfigFile [] [] [⟨"included", "not-a-version"⟩] = .error e :=
  invalid_included_version_aborts_without_write
    [] [] [⟨"included", "not-a-version"⟩] ⟨"included", "not-a-version"⟩
    (by decide) (by decide)

/-- C8: whenever generation succeeds, the produced document is the
concatenation, in this fixed order, of the trimmed static preamble, the base
workflow block, the browser workflow block and the included workflow block,
separated by the platform line terminator. -/
theorem document_is_ordered_concatenation
    (baseImages browserImages includedImages : List ImageAndTag)
    (browserText includedText : String)
    (hbw : formBrowserWorkflow browserImages = .ok browserText)
    (hinc : formIncludedWorkflow includedImages = .ok includedText) :
    writeConfigFile baseImages browserImages includedImages
      = .ok (preamble.trim ++ osEOL ++ formBaseWorkflow baseImages
          ++ osEOL ++ browserText ++ osEOL ++ includedText) := by
  simp [writeConfigFile, hbw, hinc]

/-- C8 witness: the assembled document at empty inputs. -/
theorem document_is_ordered_concatenation_witness :
    writeConfigFile [] [] []
      = .ok (preamble.trim ++ osEOL ++ formBaseWorkflow [] ++ osEOL
          ++ "  build-browser-images:\n    jobs:\n" ++ osEOL
          ++ "  build-included-images:\n    jobs:\n") := by
  exact document_is_ordered_concatenation [] [] []
    "  build-browser-images:\n    jobs:\n" "  build-included-images:\n    jobs:\n" rfl rfl

/-- C10: a browser image whose tag is in the browser skip list contributes
nothing to the browser workflow: removing it changes neither the job list nor
the overall result, so no job block is emitted for it and the unclassifiable
tag error is never raised on its account — the skip filter runs before
classification. -/
theorem skipped_browser_tag_never_classified
    (pre post : List ImageAndTag) (it : ImageAndTag)
    (h : browserIsSkipped it.tag = true) :
    formBrowserWorkflowJobs (pre ++ it :: post) = formBrowserWorkflowJobs (pre ++ post)
    ∧ formBrowserWorkflow (pre ++ it :: post) = formBrowserWorkflow (pre ++ post) := by
  have hfil : (pre ++ it :: post).filter browserIsIncluded
      = (pre ++ post).filter browserIsIncluded := by
    simp [List.filter_append, List.filter_cons, browserIsIncluded, h]
  exact ⟨by simp [formBrowserWorkflowJobs, hfil],
    by simp [formBrowserWorkflow, formBrowserWorkflowJobs, hfil]⟩

/-- C10 witness: the skip-listed tag `"chrome67"` is inert in a concrete
list. -/
theorem skipped_browser_tag_never_classified_witness :
    formBrowserWorkflow ([] ++ (⟨"browsers", "chrome67"⟩ : ImageAndTag) :: [])
      = formBrowserWorkflow ([] ++ []) :=
  (skipped_browser_tag_never_classified [] [] ⟨"browsers", "chrome67"⟩ (by decide)).2

end GenerateConfig
